import Mathlib

/-!
Verification development for the `python-agent-loop` repository
(`src/python_agent_loop.py`).

The embedding models Python values (`PyVal`), the JSON decoding performed by
`json.loads`, the directive parser `parse_agent_json`, the plan renderer
`format_plan`, the calculator tool `tool_calc`, the inline tool-dispatch
fragment of `run_agent`, and the `run_agent` loop itself as an explicit
state-passing function.  Exceptions raised by the Python code are modelled by
`Except PyExc`; external effects (the model gateway, `eval`, tool side
effects) are passed in as explicit function parameters.
-/

namespace AgentLoop

/-- Python exceptions that the agent-loop code can raise. -/
inductive PyExc where
  | attributeError (msg : String)
  | unboundLocalError (name : String)
  | keyError (msg : String)
  | typeError (msg : String)
  deriving DecidableEq, Repr

/-- Python values as produced by `json.loads` and handled by the loop.
`pynone` is Python's `None`; JSON `null` decodes to it, exactly as in
CPython, so a parsed top-level `null` is indistinguishable from the
parser's failure sentinel.  Numbers keep their source lexeme (the loop
never computes with them, it only reformats them). -/
inductive PyVal where
  | pynone
  | pybool (b : Bool)
  | pynum (lexeme : String)
  | pystr (s : String)
  | pylist (xs : List PyVal)
  | pydict (kvs : List (String × PyVal))

/-- Python `dict.get(k)` on the association list produced by `json.loads`:
the last binding of a duplicated key wins, as in CPython. -/
def dictGet (kvs : List (String × PyVal)) (k : String) : Option PyVal :=
  match kvs with
  | [] => Option.none
  | (k', v) :: rest =>
    match dictGet rest k with
    | Option.some r => Option.some r
    | Option.none => if k' = k then Option.some v else Option.none

/-- Python `dict.get(k, d)`. -/
def dictGetD (kvs : List (String × PyVal)) (k : String) (d : PyVal) : PyVal :=
  (dictGet kvs k).getD d

/-- Comma-separated join, as in Python's repr of containers. -/
def joinComma : List String → String
  | [] => ""
  | [s] => s
  | s :: rest => s ++ ", " ++ joinComma rest

mutual

/-- Python `repr` of a value (string escaping inside reprs is not modelled;
no claim depends on it). -/
def pyRepr : PyVal → String
  | PyVal.pynone => "None"
  | PyVal.pybool true => "True"
  | PyVal.pybool false => "False"
  | PyVal.pynum lex => lex
  | PyVal.pystr s => "\x27" ++ s ++ "\x27"
  | PyVal.pylist xs => "[" ++ joinComma (pyReprList xs) ++ "]"
  | PyVal.pydict kvs => "\x7b" ++ joinComma (pyReprDict kvs) ++ "\x7d"

def pyReprList : List PyVal → List String
  | [] => []
  | v :: vs => pyRepr v :: pyReprList vs

def pyReprDict : List (String × PyVal) → List String
  | [] => []
  | (k, v) :: kvs => ("\x27" ++ k ++ "\x27: " ++ pyRepr v) :: pyReprDict kvs

end

/-- Python `str` of a value (used by f-string interpolation): a string is
itself, everything else prints as its repr. -/
def pyStr (v : PyVal) : String :=
  match v with
  | PyVal.pystr s => s
  | _ => pyRepr v

/-- Whitespace characters recognised by Python `str.strip()` (ASCII range). -/
def isPySpace (c : Char) : Bool :=
  c = ' ' || c = '\t' || c = '\n' || c = '\r' || c = '\x0b' || c = '\x0c'

/-- Python `str.strip()` (on the character list). -/
def pyStripL (cs : List Char) : List Char :=
  ((cs.dropWhile isPySpace).reverse.dropWhile isPySpace).reverse

/-- Python `str.strip()`. -/
def pyStrip (s : String) : String :=
  String.mk (pyStripL s.data)

/-- Whitespace skipped by the JSON grammar (`json.loads`). -/
def isJsonWs (c : Char) : Bool :=
  c = ' ' || c = '\t' || c = '\n' || c = '\r'

def dropJsonWs (cs : List Char) : List Char :=
  cs.dropWhile isJsonWs

/-- Hexadecimal digit test (Python `string.hexdigits`). -/
def isHexDigitC (c : Char) : Bool :=
  c.isDigit || ('a' ≤ c && c ≤ 'f') || ('A' ≤ c && c ≤ 'F')

/-- Numeric value of a hexadecimal digit. -/
def hexVal (c : Char) : Nat :=
  if c.isDigit then c.toNat - 48
  else if 'a' ≤ c && c ≤ 'f' then c.toNat - 87
  else if 'A' ≤ c && c ≤ 'F' then c.toNat - 55
  else 0

/-- Decodes one simple escape character (everything except `\u`). -/
def simpleEscape (e : Char) : Except String String :=
  if e = '"' then Except.ok "\""
  else if e = '\\' then Except.ok "\\"
  else if e = '/' then Except.ok "/"
  else if e = 'b' then Except.ok "\x08"
  else if e = 'f' then Except.ok "\x0c"
  else if e = 'n' then Except.ok "\n"
  else if e = 'r' then Except.ok "\r"
  else if e = 't' then Except.ok "\t"
  else Except.error "Invalid \\escape"

/-- Scanner for the body of a JSON string literal (after the opening quote).
Returns the decoded string and the rest of the input.  Handles the simple
escapes; `\uXXXX` decodes the code point directly (surrogate pairs are not
recombined — no claim depends on them). -/
def scanJsonString : List Char → Except String (String × List Char)
  | [] => Except.error "Unterminated string"
  | '"' :: rest => Except.ok ("", rest)
  | '\\' :: 'u' :: h1 :: h2 :: h3 :: h4 :: rest =>
    if isHexDigitC h1 && isHexDigitC h2 && isHexDigitC h3 && isHexDigitC h4 then
      let n := 4096 * hexVal h1 + 256 * hexVal h2 + 16 * hexVal h3 + hexVal h4
      match scanJsonString rest with
      | Except.error m => Except.error m
      | Except.ok (tail, fin) => Except.ok (String.mk [Char.ofNat n] ++ tail, fin)
    else Except.error "Invalid \\uXXXX escape"
  | '\\' :: e :: rest =>
    match simpleEscape e with
    | Except.error m => Except.error m
    | Except.ok piece =>
      match scanJsonString rest with
      | Except.error m => Except.error m
      | Except.ok (tail, fin) => Except.ok (piece ++ tail, fin)
  | c :: rest =>
    if c.toNat < 32 then Except.error "Invalid control character"
    else
      match scanJsonString rest with
      | Except.error m => Except.error m
      | Except.ok (tail, fin) => Except.ok (String.mk [c] ++ tail, fin)

/-- Scanner for a JSON number at the head of the input, mirroring the
regular expression `(-?(?:0|[1-9]\d*))(\.\d+)?([eE][-+]?\d+)?` used by
`json.loads`.  Returns the consumed lexeme and the rest. -/
def scanJsonNumber (cs : List Char) : Except String (String × List Char) :=
  let (sign, cs1) :=
    match cs with
    | '-' :: rest => ("-", rest)
    | _ => ("", cs)
  match cs1 with
  | [] => Except.error "Expecting value"
  | c :: rest =>
    if c = '0' then
      let (tail, fin) := scanFracExp rest
      Except.ok (sign ++ "0" ++ tail, fin)
    else if c.isDigit then
      let ds := rest.takeWhile Char.isDigit
      let rest' := rest.dropWhile Char.isDigit
      let (tail, fin) := scanFracExp rest'
      Except.ok (sign ++ String.mk (c :: ds) ++ tail, fin)
    else Except.error "Expecting value"
where
  scanExp (cs : List Char) : String × List Char :=
    match cs with
    | e :: rest =>
      if e = 'e' || e = 'E' then
        let (sgn, rest1) :=
          match rest with
          | '+' :: r => ("+", r)
          | '-' :: r => ("-", r)
          | _ => ("", rest)
        let ds := rest1.takeWhile Char.isDigit
        if ds.isEmpty then ("", cs)
        else (String.mk [e] ++ sgn ++ String.mk ds, rest1.dropWhile Char.isDigit)
      else ("", cs)
    | [] => ("", cs)
  scanFracExp (cs : List Char) : String × List Char :=
    match cs with
    | '.' :: rest =>
      let ds := rest.takeWhile Char.isDigit
      if ds.isEmpty then scanExp cs
      else
        let (etail, fin) := scanExp (rest.dropWhile Char.isDigit)
        ("." ++ String.mk ds ++ etail, fin)
    | _ => scanExp cs

/-- Literal-prefix test. -/
def startsWithChars : List Char → List Char → Option (List Char)
  | [], cs => Option.some cs
  | _, [] => Option.none
  | p :: ps, c :: cs => if p = c then startsWithChars ps cs else Option.none

mutual

/-- Recursive-descent JSON value parser mirroring `json.loads` (strict
mode).  `fuel` only bounds recursion; every call site consumed at least one
character, so `length + 1` fuel suffices for any input. -/
def parseJsonVal : Nat → List Char → Except String (PyVal × List Char)
  | 0, _ => Except.error "Recursion limit"
  | Nat.succ fuel, cs =>
    let cs := dropJsonWs cs
    match cs with
    | [] => Except.error "Expecting value"
    | c :: rest =>
      if c = 'n' then
        match startsWithChars ['u', 'l', 'l'] rest with
        | Option.some fin => Except.ok (PyVal.pynone, fin)
        | Option.none => Except.error "Expecting value"
      else if c = 't' then
        match startsWithChars ['r', 'u', 'e'] rest with
        | Option.some fin => Except.ok (PyVal.pybool true, fin)
        | Option.none => Except.error "Expecting value"
      else if c = 'f' then
        match startsWithChars ['a', 'l', 's', 'e'] rest with
        | Option.some fin => Except.ok (PyVal.pybool false, fin)
        | Option.none => Except.error "Expecting value"
      else if c = '"' then
        match scanJsonString rest with
        | Except.error m => Except.error m
        | Except.ok (s, fin) => Except.ok (PyVal.pystr s, fin)
      else if c = '[' then
        match dropJsonWs rest with
        | ']' :: fin => Except.ok (PyVal.pylist [], fin)
        | _ =>
          match parseJsonArrayItems fuel rest with
          | Except.error m => Except.error m
          | Except.ok (xs, fin) => Except.ok (PyVal.pylist xs, fin)
      else if c = '\x7b' then
        match dropJsonWs rest with
        | '\x7d' :: fin => Except.ok (PyVal.pydict [], fin)
        | _ =>
          match parseJsonObjectItems fuel rest with
          | Except.error m => Except.error m
          | Except.ok (kvs, fin) => Except.ok (PyVal.pydict kvs, fin)
      else
        match scanJsonNumber cs with
        | Except.error m => Except.error m
        | Except.ok (lex, fin) => Except.ok (PyVal.pynum lex, fin)

/-- Parses `value (, value)* ]` — the members of a non-empty JSON array. -/
def parseJsonArrayItems : Nat → List Char → Except String (List PyVal × List Char)
  | 0, _ => Except.error "Recursion limit"
  | Nat.succ fuel, cs =>
    match parseJsonVal fuel cs with
    | Except.error m => Except.error m
    | Except.ok (v, rest) =>
      match dropJsonWs rest with
      | ']' :: fin => Except.ok ([v], fin)
      | ',' :: rest' =>
        match parseJsonArrayItems fuel rest' with
        | Except.error m => Except.error m
        | Except.ok (vs, fin) => Except.ok (v :: vs, fin)
      | _ => Except.error "Expecting \x27,\x27 delimiter"

/-- Parses `"key": value (, "key": value)* \x7d` — the members of a
non-empty JSON object. -/
def parseJsonObjectItems : Nat → List Char → Except String (List (String × PyVal) × List Char)
  | 0, _ => Except.error "Recursion limit"
  | Nat.succ fuel, cs =>
    match dropJsonWs cs with
    | '"' :: rest =>
      match scanJsonString rest with
      | Except.error m => Except.error m
      | Except.ok (k, rest1) =>
        match dropJsonWs rest1 with
        | ':' :: rest2 =>
          match parseJsonVal fuel rest2 with
          | Except.error m => Except.error m
          | Except.ok (v, rest3) =>
            match dropJsonWs rest3 with
            | '\x7d' :: fin => Except.ok ([(k, v)], fin)
            | ',' :: rest4 =>
              match parseJsonObjectItems fuel rest4 with
              | Except.error m => Except.error m
              | Except.ok (kvs, fin) => Except.ok ((k, v) :: kvs, fin)
            | _ => Except.error "Expecting \x27,\x27 delimiter"
        | _ => Except.error "Expecting \x27:\x27 delimiter"
    | _ => Except.error "Expecting property name enclosed in double quotes"

end

/-- Python `json.loads`: decode one JSON document, rejecting trailing
non-whitespace (`Extra data`). -/
def loads (s : String) : Except String PyVal :=
  match parseJsonVal (s.data.length + 1) s.data with
  | Except.error m => Except.error m
  | Except.ok (v, rest) =>
    if (dropJsonWs rest).isEmpty then Except.ok v else Except.error "Extra data"

/-- Boolean success test for `Except`. -/
def exceptOk {ε α : Type} : Except ε α → Bool
  | Except.ok _ => true
  | Except.error _ => false

/-- The search `re.search(r"\x7b.*\x7d", text, re.DOTALL)` on the character
list: with the greedy `.*` and DOTALL it matches from the first `\x7b` to
the last `\x7d` of the text, provided that `\x7d` comes after the `\x7b`;
otherwise there is no match. -/
def extract_bracesL (cs : List Char) : Option (List Char) :=
  let fromBrace := cs.dropWhile (fun c => c ≠ '\x7b')
  let upto := (fromBrace.reverse.dropWhile (fun c => c ≠ '\x7d')).reverse
  if upto.isEmpty then Option.none else Option.some upto

/-- String version of `extract_bracesL`. -/
def extract_braces (s : String) : Option String :=
  (extract_bracesL s.data).map String.mk

/-- Embeds `parse_agent_json` (source lines 144‑160).  The Python function
returns a pair `(obj, error_message)`; because `json.loads` decodes JSON
`null` to Python `None`, a successfully parsed `null` is returned with the
same first component as a failure. -/
def parse_agent_json (text : String) : PyVal × String :=
  let t := pyStrip text
  match loads t with
  | Except.ok v => (v, "")
  | Except.error _ =>
    match extract_braces t with
    | Option.none => (PyVal.pynone, "No JSON object found in response.")
    | Option.some sub =>
      match loads sub with
      | Except.ok v => (v, "")
      | Except.error e => (PyVal.pynone, "Failed to parse extracted JSON: " ++ e)

/-- Embeds `format_plan` (source lines 162‑168).  The loop body calls
`lines.apend(...)` — Python lists have no attribute `apend` — so the first
iteration over a non-empty plan raises `AttributeError`; only the empty
plan reaches the final `return`, where `"\n".join([])` is falsy and the
function yields `"(empty plan)"`. -/
def format_plan (plan : List String) (current_step : Nat) : Except PyExc String :=
  match plan with
  | [] => Except.ok "(empty plan)"
  | _ :: _ =>
    Except.error (PyExc.attributeError "\x27list\x27 object has no attribute \x27apend\x27")

/-- Outcome of applying a tool callable to bound keyword arguments: a
returned value, or a raised exception classified as `TypeError` versus any
other `Exception` — the two classes the dispatch code distinguishes. -/
inductive ToolOut where
  | ret (v : PyVal)
  | raiseType (msg : String)
  | raiseOther (msg : String)

/-- A registered tool (the `Tool` dataclass, lines 36‑41).  `fn` models the
Python callable applied to the keyword-argument mapping; the effects a
concrete tool performs are captured by whatever function is supplied. -/
structure Tool where
  name : String
  description : String
  args_schema : List (String × String)
  fn : List (String × PyVal) → ToolOut

/-- Models the call `tool.fn(**args)` (line 240): unpacking anything other
than a mapping raises `TypeError`; otherwise the callable decides. -/
def invoke (t : Tool) (args : PyVal) : ToolOut :=
  match args with
  | PyVal.pydict kvs => t.fn kvs
  | _ => ToolOut.raiseType "argument after ** must be a mapping"

/-- The `try`/`except` around the invocation (lines 239‑244), producing the
`result` value: `TypeError` becomes the bad-args observation, any other
exception the generic failure observation. -/
def classifyInvoke (t : Tool) (nameStr : String) (args : PyVal) : PyVal :=
  match invoke t args with
  | ToolOut.ret v => v
  | ToolOut.raiseType m =>
    PyVal.pystr ("ERROR: bad args for tool " ++ nameStr ++ ": " ++ m)
  | ToolOut.raiseOther m =>
    PyVal.pystr ("ERROR: tool " ++ nameStr ++ " failed: " ++ m)

/-- Lookup in the `TOOLS` dict, which is keyed by tool name. -/
def lookupTool (tools : List Tool) (nm : String) : Option Tool :=
  match tools with
  | [] => Option.none
  | t :: rest => if t.name = nm then Option.some t else lookupTool rest nm

/-- `list(TOOLS.keys())`. -/
def toolKeys (tools : List Tool) : List String :=
  tools.map Tool.name

/-- Python `str.startswith`. -/
def pyStartsWith (s pre : String) : Bool :=
  pre.data.isPrefixOf s.data

/-- The success heuristic at line 247:
`not (isinstance(result, str) and result.startswith("ERROR"))`.
Note that the marker tested is `"ERROR"`, without a colon. -/
def succeededOf (result : PyVal) : Bool :=
  match result with
  | PyVal.pystr s => !(pyStartsWith s "ERROR")
  | _ => true

/-- The cursor update at lines 246‑249: advance by one on a successful
result while the cursor is below the plan length, otherwise stay. -/
def advanceAfterResult (plan : List String) (current_step : Nat) (result : PyVal) : Nat :=
  if succeededOf result = true ∧ current_step < plan.length then current_step + 1
  else current_step

/-- The dispatch boundary of `run_agent` as one function of a string tool
name and the argument value (source lines 231‑236 and 238‑244): either the
unknown-name correction listing `list(TOOLS.keys())`, or the classified
invocation result.  The function is total: no exception escapes this
fragment for a string-typed name. -/
def dispatch (tools : List Tool) (nm : String) (args : PyVal) : String :=
  match lookupTool tools nm with
  | Option.none =>
    "Tool " ++ pyRepr (PyVal.pystr nm) ++ " does not exist. Choose from: " ++
      pyRepr (PyVal.pylist ((toolKeys tools).map PyVal.pystr)) ++ "."
  | Option.some t => pyStr (classifyInvoke t nm args)

/-- Character class of the guard regex in `tool_calc`:
`[0-9+\-*/().\s]`. -/
def isCalcChar (c : Char) : Bool :=
  c.isDigit || c = '+' || c = '-' || c = '*' || c = '/' || c = '(' || c = ')' ||
    c = '.' || c = ' ' || c = '\t' || c = '\n' || c = '\r' || c = '\x0b' || c = '\x0c'

/-- The guard `re.fullmatch(r"[0-9+\-*/().\s]+", expression)`: at least one
character, all from the whitelist. -/
def calcGuardOk (expression : String) : Bool :=
  !expression.isEmpty && expression.data.all isCalcChar

/-- Embeds `tool_calc` (lines 43‑54).  `eval` runs outside the repository;
it is passed in as `evalFn`, returning either the evaluated value or the
message of the exception it raised. -/
def tool_calc (evalFn : String → Except String PyVal) (expression : String) : String :=
  if !(calcGuardOk expression) then "ERROR: expression contains invalid characters"
  else
    match evalFn expression with
    | Except.ok result => pyStr result
    | Except.error e => "ERROR: " ++ e

/-- A message dict of the history.  Keys are kept explicit because one
append (line 207) writes a `"role\x7d"` key instead of `"role"`. -/
abbrev Msg := List (String × String)

/-- An ordinary two-key message dict. -/
def mkMsg (role content : String) : Msg :=
  [("role", role), ("content", content)]

/-- First-binding lookup in a message dict. -/
def msgGet (m : Msg) (k : String) : Option String :=
  match m with
  | [] => Option.none
  | (k', v) :: rest => if k' = k then Option.some v else msgGet rest k

/-- Whether a message dict carries `role: assistant`. -/
def isAssistantMsg (m : Msg) : Bool :=
  match msgGet m "role" with
  | Option.some r => r = "assistant"
  | Option.none => false

/-- Contents of the assistant messages of a history, in order. -/
def assistantContents (msgs : List Msg) : List String :=
  msgs.filterMap (fun m => if isAssistantMsg m then msgGet m "content" else Option.none)

/-- The mutable state of one `run_agent` call: the message history, the
plan and cursor, plus the Python loop locals that survive between
iterations and are read by later ones — `name`/`args` (always assigned
together in the `tool` branch, read by the dedented dispatch block) and
`raw` (read by the code after the loop).  `Option.none` models a local
that was never assigned, whose read raises `UnboundLocalError`. -/
structure AgentState where
  messages : List Msg
  plan : List String
  current_step : Nat
  toolLocals : Option (PyVal × PyVal)
  rawV : Option String

/-- Result of one loop iteration: continue with a new state, return a
value, or raise an exception out of `run_agent`. -/
inductive StepOut where
  | cont (s : AgentState)
  | ret (v : PyVal) (s : AgentState)
  | raise (e : PyExc)

/-- Whether a value can be hashed as a dict key (`name not in TOOLS`
raises `TypeError` on lists and dicts). -/
def isUnhashable (v : PyVal) : Bool :=
  match v with
  | PyVal.pylist _ => true
  | PyVal.pydict _ => true
  | _ => false

/-- Checks that a parsed value is a list whose members are all strings,
returning them (`isinstance` checks of line 204). -/
def allPyStrs : Option PyVal → Option (List String)
  | Option.some (PyVal.pylist xs) => go xs
  | _ => Option.none
where
  go : List PyVal → Option (List String)
    | [] => Option.some []
    | PyVal.pystr s :: rest =>
      match go rest with
      | Option.some ss => Option.some (s :: ss)
      | Option.none => Option.none
    | _ :: _ => Option.none

/-- The plan cleanup at line 212: strip every step and drop the ones that
strip to the empty string. -/
def cleanSteps (steps : List String) : List String :=
  steps.filterMap (fun s =>
    let t := pyStrip s
    if t = "" then Option.none else Option.some t)

/-- The correction for an unregistered tool name (line 235). -/
def unknownToolMsg (tools : List Tool) (nm : PyVal) : String :=
  "Tool " ++ pyRepr nm ++ " does not exist. Choose from: " ++
    pyRepr (PyVal.pylist ((toolKeys tools).map PyVal.pystr)) ++ "."

/-- The dedented dispatch block, source lines 238‑256.  Because the block
sits at loop level, it runs both for a `tool` directive whose name was
found registered and for any directive whose `type` is unrecognized — in
the latter case `nm`/`args` are whatever the loop locals hold.
`TOOLS[name]` raises `TypeError` on an unhashable name and `KeyError` on
a missing key. -/
def dispatchBlock (tools : List Tool) (s : AgentState) (raw : String)
    (nm args : PyVal) : StepOut :=
  match nm with
  | PyVal.pylist _ => StepOut.raise (PyExc.typeError "unhashable type: \x27list\x27")
  | PyVal.pydict _ => StepOut.raise (PyExc.typeError "unhashable type: \x27dict\x27")
  | PyVal.pystr nmStr =>
    match lookupTool tools nmStr with
    | Option.none => StepOut.raise (PyExc.keyError (pyRepr nm))
    | Option.some tool =>
      let result := classifyInvoke tool (pyStr nm) args
      StepOut.cont { s with
        current_step := advanceAfterResult s.plan s.current_step result,
        messages := s.messages ++
          [mkMsg "assistant" raw,
           mkMsg "user" ("Observation from tool " ++ pyStr nm ++ ": " ++ pyStr result)] }
  | _ => StepOut.raise (PyExc.keyError (pyRepr nm))

/-- Entry to the dispatch block from an unrecognized directive `type`: the
loop locals `name`/`args` are read; if no earlier iteration assigned them,
line 238 raises `UnboundLocalError`. -/
def staleDispatch (tools : List Tool) (s : AgentState) (raw : String) : StepOut :=
  match s.toolLocals with
  | Option.none => StepOut.raise (PyExc.unboundLocalError "name")
  | Option.some (nm, args) => dispatchBlock tools s raw nm args

/-- One iteration of the `for` loop of `run_agent` (lines 180‑256), given
this turn's gateway response `raw`. -/
def agentStep (tools : List Tool) (s : AgentState) (raw : String) : StepOut :=
  match s.plan with
  | _ :: _ =>
    -- lines 182‑186: the plan-status message calls `format_plan` on a
    -- non-empty plan, which raises before the gateway is consulted
    StepOut.raise (PyExc.attributeError "\x27list\x27 object has no attribute \x27apend\x27")
  | [] =>
    let s := { s with
      messages := s.messages ++ [mkMsg "user" "No plan exists yet. Create one."],
      rawV := Option.some raw }
    let pe := parse_agent_json raw
    match pe.1 with
    | PyVal.pynone =>
      -- lines 193‑198
      StepOut.cont { s with messages := s.messages ++
        [mkMsg "assistant" raw,
         mkMsg "user" ("Your last response was invalid JSON. Error: " ++ pe.2 ++
           ". Respond again with ONLY one JSON object.")] }
    | PyVal.pydict kvs =>
      match dictGetD kvs "type" PyVal.pynone with
      | PyVal.pystr ts =>
        if ts = "plan" || ts = "replan" then
          -- lines 202‑220
          match allPyStrs (dictGet kvs "steps") with
          | Option.none =>
            StepOut.cont { s with messages := s.messages ++
              [mkMsg "assistant" raw,
               [("role\x7d", "user"),
                ("content", "Plan must be \x7b\"type\":\"plan\":\"steps\":[...strings...]\x7d, Try again.")]] }
          | Option.some steps =>
            StepOut.cont { s with
              plan := cleanSteps steps,
              current_step := 0,
              messages := s.messages ++
                [mkMsg "assistant" "raw",
                 mkMsg "user" "No plan exists. You MUST respond with \x7b\"type\":\"plan\":,\"steps\":[...]\x7d."] }
        else if ts = "final" then
          -- lines 223‑224: return immediately, nothing appended
          StepOut.ret (dictGetD kvs "answer" (PyVal.pystr "")) s
        else if ts = "tool" then
          -- lines 227‑237
          let nm := dictGetD kvs "name" PyVal.pynone
          let args := dictGetD kvs "args" (PyVal.pydict [])
          if isUnhashable nm then
            StepOut.raise (PyExc.typeError "unhashable type")
          else
            let s := { s with toolLocals := Option.some (nm, args) }
            let unknownCont := StepOut.cont { s with messages := s.messages ++
              [mkMsg "assistant" raw, mkMsg "user" (unknownToolMsg tools nm)] }
            match nm with
            | PyVal.pystr nmStr =>
              match lookupTool tools nmStr with
              | Option.some _ => dispatchBlock tools s raw nm args
              | Option.none => unknownCont
            | _ => unknownCont
        else
          staleDispatch tools s raw
      | _ => staleDispatch tools s raw
    | _ =>
      -- line 200: `obj.get("type")` on a parsed non-dict value raises
      StepOut.raise (PyExc.attributeError "object has no attribute \x27get\x27")

/-- The fixed system instruction (lines 119‑135). -/
def SYSTEM : String :=
  "You are a tiny tool-using agent.\n\nYou MUST respond with exactly one JSON object (no markdown, no extra text).\n    Choose one of these shapes:\n\n1) Tool call:\n\x7b\"type\":\"tool\",\"name\":\"<tool_name>\",\"args\":\x7b...\x7d\x7d\n\n2) Final answer:\n\x7b\"type\":\"final\",\"answer\":\"...\"\x7d\n\nRules:\n- Only call tools that exist in the tool list.\n- If you need info from the environment/files, call a tool rather than guessing.\n- Keep steps small and verify with tools when relevant.\n- You can only respond with a single tool that will be invoked per iteration\n"

/-- Separator join. -/
def joinSep (sep : String) : List String → String
  | [] => ""
  | [s] => s
  | s :: rest => s ++ sep ++ joinSep sep rest

/-- Double-quoted JSON rendering of a plain string (escaping is not
modelled; no claim depends on the manifest text). -/
def jsonQuote (s : String) : String :=
  "\"" ++ s ++ "\""

/-- Models `json.dumps` of one `args_schema` mapping at nesting depth two
of `json.dumps(tool_list, indent=2)`. -/
def dumpsArgsSchema (kvs : List (String × String)) : String :=
  match kvs with
  | [] => "\x7b\x7d"
  | _ =>
    "\x7b\n" ++
      joinSep ",\n" (kvs.map (fun kv => "      " ++ jsonQuote kv.1 ++ ": " ++ jsonQuote kv.2)) ++
      "\n    \x7d"

/-- Models one manifest entry of `json.dumps(tool_list, indent=2)`. -/
def dumpsToolEntry (t : Tool) : String :=
  "  \x7b\n    \"name\": " ++ jsonQuote t.name ++ ",\n    \"description\": " ++
    jsonQuote t.description ++ ",\n    \"args_schema\": " ++
    dumpsArgsSchema t.args_schema ++ "\n  \x7d"

/-- Embeds `tools_manifest` (lines 137‑142), with the registry passed in
place of the module-global `TOOLS`. -/
def tools_manifest (tools : List Tool) : String :=
  match tools with
  | [] => "[]"
  | _ => "[\n" ++ joinSep ",\n" (tools.map dumpsToolEntry) ++ "\n]"

/-- The seeded message history of `run_agent` (lines 174‑178). -/
def initMessages (tools : List Tool) (task : String) : List Msg :=
  [mkMsg "system" SYSTEM,
   mkMsg "user" ("Available tools:\n" ++ tools_manifest tools),
   mkMsg "user" ("Task: " ++ task)]

/-- The state at entry of the loop: seeded history, empty plan, cursor 0,
loop locals unassigned. -/
def initState (tools : List Tool) (task : String) : AgentState :=
  ⟨initMessages tools task, [], 0, Option.none, Option.none⟩

/-- The `for step in range(1, max_steps + 1)` loop of `run_agent` together
with the code after it (lines 258‑265), driven by the gateway oracle
`responses` (turn `i` receives `responses i`; the gateway is an external
blocking call).  When the range is exhausted, the code after the loop
appends the stale `raw` as an assistant message plus the invalid-type
correction, then returns the exhaustion string; with `max_steps = 0` the
read of `raw` raises `UnboundLocalError`. -/
def runLoop (tools : List Tool) (responses : Nat → String) (max_steps : Nat) :
    Nat → Nat → AgentState → Except PyExc (PyVal × AgentState)
  | 0, _, s =>
    match s.rawV with
    | Option.none => Except.error (PyExc.unboundLocalError "raw")
    | Option.some raw =>
      Except.ok
        (PyVal.pystr ("Stopped after " ++ toString max_steps ++
          " iterations without a final answer."),
         { s with messages := s.messages ++
           [mkMsg "assistant" raw,
            mkMsg "user" "Invalid \"type\". Use \"plan\", \"replan\", \"tool\", or \"final\"."] })
  | Nat.succ fuel, i, s =>
    match agentStep tools s (responses i) with
    | StepOut.raise e => Except.error e
    | StepOut.ret v s' => Except.ok (v, s')
    | StepOut.cont s' => runLoop tools responses max_steps fuel (i + 1) s'

/-- Embeds `run_agent` (lines 170‑265): the Python return value together
with the final message/plan state.  The registry is passed in place of the
module-global `TOOLS`. -/
def run_agent (tools : List Tool) (responses : Nat → String) (task : String)
    (max_steps : Nat) : Except PyExc (PyVal × AgentState) :=
  runLoop tools responses max_steps max_steps 0 (initState tools task)

/-- The substring of the model text that `parse_agent_json` effectively
parsed: the whole stripped text when that already decodes, otherwise the
brace-extracted block. -/
def extractedOf (text : String) : Option String :=
  let t := pyStrip text
  if exceptOk (loads t) then Option.some t else extract_braces t

/-- Whether a response is an accepted `plan`/`replan` directive — the only
path of the loop that replaces the plan and resets the cursor to zero. -/
def acceptsPlan (raw : String) : Bool :=
  match (parse_agent_json raw).1 with
  | PyVal.pydict kvs =>
    match dictGetD kvs "type" PyVal.pynone with
    | PyVal.pystr ts =>
      (ts = "plan" || ts = "replan") && (allPyStrs (dictGet kvs "steps")).isSome
    | _ => false
  | _ => false

/-- A concrete registry entry used to instantiate general theorems: the
`calc` tool's metadata with a callable that returns the fixed text `53`
(standing for one successful evaluation). -/
def calcStub : Tool :=
  ⟨"calc", "Evaluate a simple arithmetic expression.", [("expression", "string")],
   fun _ => ToolOut.ret (PyVal.pystr "53")⟩

/-- A one-tool registry built from `calcStub`. -/
def sampleTools : List Tool := [calcStub]

/- Helper lemmas about stripping and brace extraction. -/

lemma pyStripL_eq (cs : List Char) :
    pyStripL cs = List.rdropWhile isPySpace (cs.dropWhile isPySpace) := rfl

lemma prefix_head_eq {α : Type} {l₁ l₂ : List α} (h : l₁ <+: l₂) (hne : l₁ ≠ []) :
    l₂.head? = l₁.head? := by
  obtain ⟨t, rfl⟩ := h
  cases l₁ with
  | nil => exact absurd rfl hne
  | cons a l => rfl

lemma head_dropWhile_false {p : Char → Bool} {l : List Char} {a : Char}
    (h : (l.dropWhile p).head? = Option.some a) : p a = false := by
  have hne : l.dropWhile p ≠ [] := by
    intro hnil
    rw [hnil] at h
    exact Option.noConfusion h
  have := List.head_dropWhile_not p l hne
  rw [List.head?_eq_head hne] at h
  cases h
  exact this

lemma getLast_rdropWhile_false {p : Char → Bool} {l : List Char} {a : Char}
    (h : (List.rdropWhile p l).getLast? = Option.some a) : p a = false := by
  have hne : List.rdropWhile p l ≠ [] := by
    intro hnil
    rw [hnil] at h
    exact Option.noConfusion h
  have hnot := List.rdropWhile_last_not p l hne
  rw [List.getLast?_eq_getLast _ hne] at h
  cases h
  exact Bool.not_eq_true _ ▸ (by simpa using hnot)

lemma pyStripL_head {cs : List Char} {a : Char}
    (h : (pyStripL cs).head? = Option.some a) : isPySpace a = false := by
  rw [pyStripL_eq] at h
  have hne : List.rdropWhile isPySpace (cs.dropWhile isPySpace) ≠ [] := by
    intro hnil
    rw [hnil] at h
    exact Option.noConfusion h
  have hpre := List.rdropWhile_prefix isPySpace (cs.dropWhile isPySpace)
  have := prefix_head_eq hpre hne
  exact head_dropWhile_false (this ▸ h)

lemma pyStripL_getLast {cs : List Char} {a : Char}
    (h : (pyStripL cs).getLast? = Option.some a) : isPySpace a = false := by
  rw [pyStripL_eq] at h
  exact getLast_rdropWhile_false h

lemma pyStripL_fix {cs : List Char}
    (hh : ∀ a, cs.head? = Option.some a → isPySpace a = false)
    (hl : ∀ a, cs.getLast? = Option.some a → isPySpace a = false) :
    pyStripL cs = cs := by
  have h1 : cs.dropWhile isPySpace = cs := by
    rw [List.dropWhile_eq_self_iff]
    intro hlen
    have hhead : cs.head? = Option.some (cs.get ⟨0, hlen⟩) := by
      cases cs with
      | nil => exact absurd hlen (by simp)
      | cons c l => rfl
    have hres := hh _ hhead
    simp only [List.get_eq_getElem] at hres
    simp [hres]
  have h2 : List.rdropWhile isPySpace cs = cs := by
    rw [List.rdropWhile_eq_self_iff]
    intro hne
    have hres := hl (cs.getLast hne) (List.getLast?_eq_getLast _ hne)
    simp [hres]
  rw [pyStripL_eq, h1, h2]

lemma pyStripL_idem (cs : List Char) : pyStripL (pyStripL cs) = pyStripL cs := by
  refine pyStripL_fix (fun a ha => pyStripL_head ha) (fun a ha => pyStripL_getLast ha)

lemma pyStrip_data (s : String) : (pyStrip s).data = pyStripL s.data := rfl

lemma pyStrip_idem (s : String) : pyStrip (pyStrip s) = pyStrip s := by
  show String.mk (pyStripL (pyStripL s.data)) = String.mk (pyStripL s.data)
  rw [pyStripL_idem]

lemma extract_bracesL_eq (cs : List Char) :
    extract_bracesL cs =
      (if (List.rdropWhile (fun c => c ≠ '\x7d') (cs.dropWhile (fun c => c ≠ '\x7b'))).isEmpty
       then Option.none
       else Option.some
         (List.rdropWhile (fun c => c ≠ '\x7d') (cs.dropWhile (fun c => c ≠ '\x7b')))) := rfl

lemma extract_bracesL_none {cs : List Char} (h : ∀ c ∈ cs, c ≠ '\x7b') :
    extract_bracesL cs = Option.none := by
  have h1 : cs.dropWhile (fun c => decide (c ≠ '\x7b')) = [] :=
    List.dropWhile_eq_nil_iff.mpr (fun x hx => by simpa using h x hx)
  rw [extract_bracesL_eq]
  simp only [h1, List.rdropWhile_nil, List.isEmpty_nil, if_true]

lemma extract_bracesL_props {cs sub : List Char}
    (h : extract_bracesL cs = Option.some sub) :
    (∀ a, sub.head? = Option.some a → a = '\x7b') ∧
    (∀ a, sub.getLast? = Option.some a → a = '\x7d') := by
  rw [extract_bracesL_eq] at h
  split at h
  · exact Option.noConfusion h
  · cases h
    constructor
    · intro a ha
      have hne : List.rdropWhile (fun c => decide (c ≠ '\x7d'))
          (cs.dropWhile (fun c => decide (c ≠ '\x7b'))) ≠ [] := by
        intro hnil
        rw [hnil] at ha
        exact Option.noConfusion ha
      have hpre := List.rdropWhile_prefix (fun c => decide (c ≠ '\x7d'))
        (cs.dropWhile (fun c => decide (c ≠ '\x7b')))
      have heq := prefix_head_eq hpre hne
      have := head_dropWhile_false (heq ▸ ha)
      simpa using this
    · intro a ha
      have := getLast_rdropWhile_false ha
      simpa using this

lemma pyStrip_extract_fix {t sub : String}
    (h : extract_braces t = Option.some sub) : pyStrip sub = sub := by
  unfold extract_braces at h
  cases he : extract_bracesL t.data with
  | none => rw [he] at h; exact Option.noConfusion h
  | some l =>
    rw [he] at h
    simp only [Option.map] at h
    obtain ⟨hh, hl⟩ := extract_bracesL_props he
    cases h
    show String.mk (pyStripL l) = String.mk l
    rw [pyStripL_fix ?_ ?_]
    · intro a ha
      rw [hh a ha]
      rfl
    · intro a ha
      rw [hl a ha]
      rfl

lemma mem_of_mem_pyStripL {c : Char} {cs : List Char}
    (h : c ∈ pyStripL cs) : c ∈ cs := by
  rw [pyStripL_eq] at h
  have h1 : c ∈ cs.dropWhile isPySpace :=
    List.Sublist.mem h (List.rdropWhile_prefix _ _).sublist
  exact List.Sublist.mem h1 (List.dropWhile_suffix _).sublist

/- Helper lemmas about the tool registry and the cursor update. -/

lemma lookupTool_none_iff (tools : List Tool) (nm : String) :
    lookupTool tools nm = Option.none ↔ nm ∉ toolKeys tools := by
  induction tools with
  | nil => simp [lookupTool, toolKeys]
  | cons t rest ih =>
    have hkeys : toolKeys (t :: rest) = t.name :: toolKeys rest := rfl
    by_cases h : t.name = nm
    · rw [hkeys, h]
      simp [lookupTool, h]
    · rw [hkeys]
      simp only [lookupTool, if_neg h, List.mem_cons]
      rw [ih]
      constructor
      · intro hnot hor
        cases hor with
        | inl he => exact h he.symm
        | inr hm => exact hnot hm
      · exact fun hnot hm => hnot (Or.inr hm)

lemma joinComma_eq (l : List String) : joinComma l = joinSep ", " l := by
  induction l with
  | nil => rfl
  | cons s rest ih =>
    cases rest with
    | nil => rfl
    | cons r rs => simp only [joinComma, joinSep] at ih ⊢; rw [ih]

lemma pyReprList_map_str (ks : List String) :
    pyReprList (ks.map PyVal.pystr) = ks.map (fun k => "\x27" ++ k ++ "\x27") := by
  induction ks with
  | nil => rfl
  | cons k rest ih => simp only [List.map, pyReprList, pyRepr, ih]

lemma pyRepr_pystr_list (ks : List String) :
    pyRepr (PyVal.pylist (ks.map PyVal.pystr)) =
      "[" ++ joinSep ", " (ks.map (fun k => "\x27" ++ k ++ "\x27")) ++ "]" := by
  rw [pyRepr, pyReprList_map_str, joinComma_eq]

lemma advanceAfterResult_ge (plan : List String) (cur : Nat) (r : PyVal) :
    cur ≤ advanceAfterResult plan cur r := by
  unfold advanceAfterResult
  split <;> omega

lemma advanceAfterResult_le (plan : List String) (cur : Nat) (r : PyVal)
    (h : cur ≤ plan.length) : advanceAfterResult plan cur r ≤ plan.length := by
  unfold advanceAfterResult
  split
  · next hc => omega
  · exact h

/- Step-level invariant lemmas for the loop state machine. -/

lemma dispatchBlock_cont_cursor {tools : List Tool} {s : AgentState} {raw : String}
    {nm args : PyVal} {s' : AgentState}
    (h : dispatchBlock tools s raw nm args = StepOut.cont s') :
    s'.plan = s.plan ∧ s.current_step ≤ s'.current_step ∧
      (s.current_step ≤ s.plan.length → s'.current_step ≤ s.plan.length) := by
  unfold dispatchBlock at h
  split at h <;> first
  | exact StepOut.noConfusion h
  | (split at h
     · exact StepOut.noConfusion h
     · cases h
       refine ⟨rfl, advanceAfterResult_ge _ _ _, fun hb => advanceAfterResult_le _ _ _ hb⟩)

lemma staleDispatch_cont_cursor {tools : List Tool} {s : AgentState} {raw : String}
    {s' : AgentState} (h : staleDispatch tools s raw = StepOut.cont s') :
    s'.plan = s.plan ∧ s.current_step ≤ s'.current_step ∧
      (s.current_step ≤ s.plan.length → s'.current_step ≤ s.plan.length) := by
  unfold staleDispatch at h
  split at h
  · exact StepOut.noConfusion h
  · exact dispatchBlock_cont_cursor h

lemma dispatchBlock_ne_ret {tools : List Tool} {s : AgentState} {raw : String}
    {nm args : PyVal} {v : PyVal} {s' : AgentState} :
    dispatchBlock tools s raw nm args ≠ StepOut.ret v s' := by
  unfold dispatchBlock
  split <;> first
  | exact fun hc => StepOut.noConfusion hc
  | (split
     · exact fun hc => StepOut.noConfusion hc
     · exact fun hc => StepOut.noConfusion hc)

lemma staleDispatch_ne_ret {tools : List Tool} {s : AgentState} {raw : String}
    {v : PyVal} {s' : AgentState} :
    staleDispatch tools s raw ≠ StepOut.ret v s' := by
  unfold staleDispatch
  split
  · exact fun hc => StepOut.noConfusion hc
  · exact dispatchBlock_ne_ret

lemma agentStep_cont_cursor {tools : List Tool} {s : AgentState} {raw : String}
    {s' : AgentState} (h : agentStep tools s raw = StepOut.cont s') :
    (acceptsPlan raw = true ∧ s'.current_step = 0) ∨
    (s'.plan = s.plan ∧ s.current_step ≤ s'.current_step ∧
      (s.current_step ≤ s.plan.length → s'.current_step ≤ s.plan.length)) := by
  unfold agentStep at h
  split at h
  · exact StepOut.noConfusion h
  · next hplan =>
    dsimp only at h
    split at h
    · cases h
      exact Or.inr ⟨rfl, Nat.le_refl _, fun hb => hb⟩
    · next kvs hkvs =>
      split at h
      · next ts hts =>
        split at h
        · next hplanty =>
          split at h
          · cases h
            exact Or.inr ⟨rfl, Nat.le_refl _, fun hb => hb⟩
          · next steps hsteps =>
            cases h
            refine Or.inl ⟨?_, rfl⟩
            simp only [acceptsPlan, hkvs, hts, hsteps, hplanty, Option.isSome_some,
              Bool.and_self]
        · split at h
          · exact StepOut.noConfusion h
          · split at h
            · next htool =>
              split at h
              · exact StepOut.noConfusion h
              · split at h
                · split at h
                  · have hres := dispatchBlock_cont_cursor h
                    exact Or.inr hres
                  · cases h
                    exact Or.inr ⟨rfl, Nat.le_refl _, fun hb => hb⟩
                · cases h
                  exact Or.inr ⟨rfl, Nat.le_refl _, fun hb => hb⟩
            · have hres := staleDispatch_cont_cursor h
              exact Or.inr hres
      · have hres := staleDispatch_cont_cursor h
        exact Or.inr hres
    · exact StepOut.noConfusion h

lemma string_append_ne_empty_left {a b : String} (h : a.data ≠ []) : a ++ b ≠ "" := by
  intro hc
  apply h
  have hd : (a ++ b).data = ("" : String).data := congrArg String.data hc
  rw [String.data_append] at hd
  exact (List.append_eq_nil.mp hd).1

lemma agentStep_ret_state {tools : List Tool} {s : AgentState} {raw : String}
    {v : PyVal} {s' : AgentState} (h : agentStep tools s raw = StepOut.ret v s') :
    s'.plan = s.plan ∧ s'.current_step = s.current_step := by
  unfold agentStep at h
  split at h
  · exact StepOut.noConfusion h
  · dsimp only at h
    split at h
    · exact StepOut.noConfusion h
    · split at h
      · split at h
        · split at h
          · exact StepOut.noConfusion h
          · exact StepOut.noConfusion h
        · split at h
          · cases h
            exact ⟨rfl, rfl⟩
          · split at h
            · split at h
              · exact StepOut.noConfusion h
              · split at h
                · split at h
                  · exact absurd h dispatchBlock_ne_ret
                  · exact StepOut.noConfusion h
                · exact StepOut.noConfusion h
            · exact absurd h staleDispatch_ne_ret
      · exact absurd h staleDispatch_ne_ret
    · exact StepOut.noConfusion h

lemma runLoop_cursor_inv (tools : List Tool) (resp : Nat → String) (ms : Nat) :
    ∀ (fuel i : Nat) (s : AgentState), s.current_step ≤ s.plan.length →
      ∀ (v : PyVal) (st : AgentState),
        runLoop tools resp ms fuel i s = Except.ok (v, st) →
        st.current_step ≤ st.plan.length := by
  intro fuel
  induction fuel with
  | zero =>
    intro i s hs v st h
    unfold runLoop at h
    split at h
    · exact Except.noConfusion h
    · cases h
      exact hs
  | succ n ih =>
    intro i s hs v st h
    unfold runLoop at h
    split at h
    · exact Except.noConfusion h
    · next v' s' heq =>
      cases h
      obtain ⟨h1, h2⟩ := agentStep_ret_state heq
      rw [h1, h2]
      exact hs
    · next s' heq =>
      refine ih (i + 1) s' ?_ v st h
      rcases agentStep_cont_cursor heq with ⟨_, hz⟩ | ⟨hp, _, hb⟩
      · rw [hz]
        exact Nat.zero_le _
      · rw [hp]
        exact hb hs

lemma parse_agent_json_eq (text : String) :
    parse_agent_json text =
      (match loads (pyStrip text) with
       | Except.ok v => (v, "")
       | Except.error _ =>
         match extract_braces (pyStrip text) with
         | Option.none => (PyVal.pynone, "No JSON object found in response.")
         | Option.some sub =>
           match loads sub with
           | Except.ok v => (v, "")
           | Except.error e =>
             (PyVal.pynone, "Failed to parse extracted JSON: " ++ e)) := rfl

lemma extractedOf_eq (text : String) :
    extractedOf text =
      (if exceptOk (loads (pyStrip text)) then Option.some (pyStrip text)
       else extract_braces (pyStrip text)) := rfl

/- Claim theorems. -/

/-- Claim C1 (status: code_bug): the spec requires that a model turn whose
JSON object has a missing or unrecognized `type` is answered with one
corrective user message, no tool invocation, and no exception.  In the
code, the dispatch block (lines 238‑256) is dedented to loop level and the
corrective append (lines 258‑263) sits after the loop, so such a turn
falls into `tool = TOOLS[name]` with the loop local `name` unassigned:
on the very first such turn `run_agent` dies with `UnboundLocalError`,
for any registry, any task and both an unrecognized and a missing `type`
field. -/
theorem c1_unknown_type_raises (tools : List Tool) (task : String) :
    run_agent tools (fun _ => "\x7b\"type\": \"banana\"\x7d") task 3 =
      Except.error (PyExc.unboundLocalError "name") ∧
    run_agent tools (fun _ => "\x7b\"x\": 1\x7d") task 3 =
      Except.error (PyExc.unboundLocalError "name") :=
  ⟨rfl, rfl⟩

/-- Claim C2 (status: code_bug): the spec requires the raw model response
to be appended as an `assistant` message on every branch.  In the code the
`final` branch returns without appending anything — the run below ends
with zero assistant messages in the history — and the accepted-plan
branch appends the literal string `"raw"` (line 215) instead of the
response, as the second run shows. -/
theorem c2_assistant_append_broken (tools : List Tool) (task : String) :
    (run_agent tools (fun _ => "\x7b\"type\":\"final\",\"answer\":\"hi\"\x7d") task 1).map
        (fun p => (p.1, assistantContents p.2.messages)) =
      Except.ok (PyVal.pystr "hi", []) ∧
    (run_agent tools (fun _ => "\x7b\"type\":\"plan\",\"steps\":[\"a\"]\x7d") task 1).map
        (fun p => assistantContents p.2.messages) =
      Except.ok ["raw", "\x7b\"type\":\"plan\",\"steps\":[\"a\"]\x7d"] :=
  ⟨rfl, rfl⟩

/-- Claim C3 (status: code_bug): the spec says rendering a non-empty plan
produces one line per step and never raises.  The loop body of
`format_plan` calls `lines.apend(...)` (line 167) — a misspelling of
`append` — so rendering any non-empty plan raises `AttributeError` on the
first step; only the empty plan renders, to the fixed `(empty plan)`
text. -/
theorem c3_format_plan_raises :
    format_plan ["step one"] 0 =
      Except.error (PyExc.attributeError "\x27list\x27 object has no attribute \x27apend\x27") ∧
    format_plan [] 0 = Except.ok "(empty plan)" ∧
    format_plan [] 5 = Except.ok "(empty plan)" :=
  ⟨rfl, rfl, rfl⟩

/-- Claim C4, counterexample: the claim says a result is judged successful
iff it does not start with the marker `ERROR:`.  The code tests the prefix
`ERROR` without the colon (line 247), so the result string `ERRORX` —
which does not start with `ERROR:` — is nevertheless judged failed. -/
theorem c4_error_colon_counterexample :
    ¬ (succeededOf (PyVal.pystr "ERRORX") = true ↔
        pyStartsWith "ERRORX" "ERROR:" = false) := by
  decide

/-- Claim C4 as amended (status: corrected): a dispatched result is judged
successful iff it is not a string starting with `ERROR` (no colon), and
the cursor update of lines 246‑249 advances by exactly one on a successful
result below the plan length, never on a failed result, and never past the
plan length. -/
theorem c4_success_marker (r : String) (plan : List String) (cur : Nat) :
    (succeededOf (PyVal.pystr r) = true ↔ pyStartsWith r "ERROR" = false) ∧
    (pyStartsWith r "ERROR" = false → cur < plan.length →
      advanceAfterResult plan cur (PyVal.pystr r) = cur + 1) ∧
    (pyStartsWith r "ERROR" = true →
      advanceAfterResult plan cur (PyVal.pystr r) = cur) ∧
    (plan.length ≤ cur → advanceAfterResult plan cur (PyVal.pystr r) = cur) := by
  refine ⟨?_, ?_, ?_, ?_⟩
  · unfold succeededOf
    cases hx : pyStartsWith r "ERROR" <;> simp [hx]
  · intro hf hlt
    have hsucc : succeededOf (PyVal.pystr r) = true := by
      simp [succeededOf, hf]
    unfold advanceAfterResult
    rw [if_pos ⟨hsucc, hlt⟩]
  · intro ht
    have hsucc : succeededOf (PyVal.pystr r) = false := by
      simp [succeededOf, ht]
    unfold advanceAfterResult
    rw [if_neg (fun hc => by rw [hsucc] at hc; exact Bool.noConfusion hc.1)]
  · intro hle
    unfold advanceAfterResult
    rw [if_neg (fun hc => absurd hc.2 (Nat.not_lt.mpr hle))]

/-- Witness for C4 at concrete results: a success advances the cursor from
0 to 1 in a one-step plan, an `ERROR:`-prefixed result leaves it at 0. -/
theorem c4_success_marker_witness :
    advanceAfterResult ["a"] 0 (PyVal.pystr "ok") = 0 + 1 ∧
    advanceAfterResult ["a"] 0 (PyVal.pystr "ERROR: boom") = 0 ∧
    (succeededOf (PyVal.pystr "ok") = true ↔ pyStartsWith "ok" "ERROR" = false) := by
  refine ⟨?_, ?_, ?_⟩
  · exact (c4_success_marker "ok" ["a"] 0).2.1 (by decide) (by decide)
  · exact (c4_success_marker "ERROR: boom" ["a"] 0).2.2.1 (by decide)
  · exact (c4_success_marker "ok" ["a"] 0).1

/-- Claim C5 (status: confirmed): from any state with the cursor in
bounds, one loop iteration keeps the cursor within `[0, plan length]`, and
the cursor never decreases except when an accepted `plan`/`replan`
directive resets it to zero; consequently every normal return of
`run_agent` leaves the cursor within bounds. -/
theorem c5_cursor_in_bounds (tools : List Tool) (s : AgentState) (raw : String)
    (hs : s.current_step ≤ s.plan.length) :
    (∀ s', agentStep tools s raw = StepOut.cont s' →
       s'.current_step ≤ s'.plan.length ∧
       (s.current_step ≤ s'.current_step ∨
         (acceptsPlan raw = true ∧ s'.current_step = 0))) ∧
    (∀ (resp : Nat → String) (task : String) (ms : Nat) (v : PyVal) (st : AgentState),
       run_agent tools resp task ms = Except.ok (v, st) →
       st.current_step ≤ st.plan.length) := by
  constructor
  · intro s' h
    rcases agentStep_cont_cursor h with ⟨hacc, hz⟩ | ⟨hp, hmono, hb⟩
    · constructor
      · rw [hz]
        exact Nat.zero_le _
      · exact Or.inr ⟨hacc, hz⟩
    · constructor
      · rw [hp]
        exact hb hs
      · exact Or.inl hmono
  · intro resp task ms v st h
    exact runLoop_cursor_inv tools resp ms ms 0 (initState tools task)
      (Nat.le_refl 0) v st h

/-- Witness for C5: one concrete invalid-JSON turn from the empty-plan
start state keeps the cursor at 0, within the (empty) plan bounds. -/
theorem c5_cursor_in_bounds_witness :
    (⟨[mkMsg "user" "No plan exists yet. Create one.",
       mkMsg "assistant" "x",
       mkMsg "user" "Your last response was invalid JSON. Error: No JSON object found in response.. Respond again with ONLY one JSON object."],
      [], 0, Option.none, Option.some "x"⟩ : AgentState).current_step ≤
      (⟨[mkMsg "user" "No plan exists yet. Create one.",
         mkMsg "assistant" "x",
         mkMsg "user" "Your last response was invalid JSON. Error: No JSON object found in response.. Respond again with ONLY one JSON object."],
        [], 0, Option.none, Option.some "x"⟩ : AgentState).plan.length ∧
    ((⟨[], [], 0, Option.none, Option.none⟩ : AgentState).current_step ≤ 0 ∨
      (acceptsPlan "x" = true ∧ (0 : Nat) = 0)) :=
  (c5_cursor_in_bounds [] ⟨[], [], 0, Option.none, Option.none⟩ "x"
    (Nat.le_refl 0)).1
    ⟨[mkMsg "user" "No plan exists yet. Create one.",
      mkMsg "assistant" "x",
      mkMsg "user" "Your last response was invalid JSON. Error: No JSON object found in response.. Respond again with ONLY one JSON object."],
     [], 0, Option.none, Option.some "x"⟩ rfl

/-- Claim C6 (status: confirmed): for a tool directive whose name is a
string, the dispatch fragment is a total function to an observation text:
an unregistered name yields the correction that quotes the name and lists
exactly the registered tool names (and the result does not depend on the
tools' callables — nothing is invoked); a `TypeError` from invocation
yields the distinct bad-args observation; any other exception yields the
generic tool-failed observation carrying the message; a returned string is
passed through verbatim. -/
theorem c6_dispatch_contract (tools : List Tool) (nm : String) (args : PyVal) :
    (lookupTool tools nm = Option.none →
       dispatch tools nm args =
         "Tool " ++ ("\x27" ++ nm ++ "\x27") ++ " does not exist. Choose from: " ++
           ("[" ++ joinSep ", " ((toolKeys tools).map (fun k => "\x27" ++ k ++ "\x27")) ++ "]") ++
           "." ∧
       (∀ tools2, toolKeys tools2 = toolKeys tools →
          dispatch tools2 nm args = dispatch tools nm args)) ∧
    (∀ t, lookupTool tools nm = Option.some t →
       (∀ m, invoke t args = ToolOut.raiseType m →
          dispatch tools nm args = "ERROR: bad args for tool " ++ nm ++ ": " ++ m) ∧
       (∀ m, invoke t args = ToolOut.raiseOther m →
          dispatch tools nm args = "ERROR: tool " ++ nm ++ " failed: " ++ m) ∧
       (∀ r, invoke t args = ToolOut.ret (PyVal.pystr r) →
          dispatch tools nm args = r)) := by
  constructor
  · intro hnone
    constructor
    · unfold dispatch
      rw [hnone, pyRepr_pystr_list]
      simp only [pyRepr]
    · intro tools2 hk
      have hnone2 : lookupTool tools2 nm = Option.none :=
        (lookupTool_none_iff tools2 nm).mpr
          (hk ▸ (lookupTool_none_iff tools nm).mp hnone)
      unfold dispatch
      rw [hnone, hnone2, hk]
  · intro t ht
    refine ⟨?_, ?_, ?_⟩
    · intro m hm
      simp only [dispatch, classifyInvoke, ht, hm, pyStr]
    · intro m hm
      simp only [dispatch, classifyInvoke, ht, hm, pyStr]
    · intro r hr
      simp only [dispatch, classifyInvoke, ht, hr, pyStr]

/-- Witness for C6 on the one-tool sample registry: the unknown name
`nope` produces the correction listing exactly `calc`, and dispatching
`calc` passes its text result through verbatim. -/
theorem c6_dispatch_contract_witness :
    dispatch sampleTools "nope" (PyVal.pydict []) =
      "Tool " ++ ("\x27" ++ "nope" ++ "\x27") ++ " does not exist. Choose from: " ++
        ("[" ++ joinSep ", " ((toolKeys sampleTools).map (fun k => "\x27" ++ k ++ "\x27")) ++ "]") ++
        "." ∧
    dispatch sampleTools "calc" (PyVal.pydict []) = "53" := by
  constructor
  · exact ((c6_dispatch_contract sampleTools "nope" (PyVal.pydict [])).1 rfl).1
  · exact ((c6_dispatch_contract sampleTools "calc" (PyVal.pydict [])).2 calcStub rfl).2.2
      "53" rfl

/-- Claim C7, counterexample: the claim says the parser returns either a
parsed object with empty error or no object with a non-empty reason, and
that any text with no brace yields exactly the no-JSON-found reason.  The
input `null` contains no brace, yet `json.loads` decodes it to Python
`None`, so `parse_agent_json` returns no object with an *empty* reason —
neither disjunct, and not the no-JSON-found reason. -/
theorem c7_null_counterexample :
    parse_agent_json "null" = (PyVal.pynone, "") ∧
    "null".data.all (fun c => c ≠ '\x7b') = true ∧
    "" ≠ "No JSON object found in response." := by
  refine ⟨rfl, by decide, by decide⟩

/-- Claim C7 as amended (status: corrected): the parser is a total
function, and for any text with no `\x7b` character *whose whole stripped
text does not itself decode as JSON*, it returns no object with exactly
the fixed no-JSON-found reason.  (A braceless text that decodes — a bare
number, string, or `null` — is returned as parsed, with `null` collapsing
into the no-object result with empty reason.) -/
theorem c7_no_brace_reason (text : String)
    (hb : ∀ c ∈ text.data, c ≠ '\x7b')
    (hfail : exceptOk (loads (pyStrip text)) = false) :
    parse_agent_json text = (PyVal.pynone, "No JSON object found in response.") := by
  rw [parse_agent_json_eq]
  cases hL : loads (pyStrip text) with
  | ok w =>
    rw [hL] at hfail
    exact absurd hfail (by simp [exceptOk])
  | error e0 =>
    have hnone : extract_braces (pyStrip text) = Option.none := by
      unfold extract_braces
      rw [pyStrip_data, extract_bracesL_none
        (fun c hc => hb c (mem_of_mem_pyStripL hc))]
      rfl
    dsimp only
    rw [hnone]

/-- Witness for C7 at the concrete braceless input `hello`, which fails
the whole-text decode. -/
theorem c7_no_brace_reason_witness :
    parse_agent_json "hello" = (PyVal.pynone, "No JSON object found in response.") :=
  c7_no_brace_reason "hello" (by decide) rfl

/-- Claim C8 (status: code_bug): the spec says `run_agent` always returns
either the final answer (immediately) or the exhaustion string after
exactly `max_steps` turns.  The immediate final return and the exhaustion
return do hold (second and third conjuncts), but a run in which the model
first installs a non-empty plan raises `AttributeError` on the next turn
(the `format_plan` typo of C3), returning neither outcome. -/
theorem c8_two_outcomes_broken (tools : List Tool) (task : String) :
    run_agent tools
        (fun i => if i = 0 then "\x7b\"type\":\"plan\",\"steps\":[\"a\"]\x7d" else "x")
        task 2 =
      Except.error (PyExc.attributeError "\x27list\x27 object has no attribute \x27apend\x27") ∧
    (run_agent tools (fun _ => "not json at all") task 3).map Prod.fst =
      Except.ok (PyVal.pystr "Stopped after 3 iterations without a final answer.") ∧
    (run_agent tools (fun _ => "\x7b\"type\":\"final\",\"answer\":\"hi\"\x7d") task 5).map
        Prod.fst =
      Except.ok (PyVal.pystr "hi") :=
  ⟨rfl, rfl, rfl⟩

/-- Claim C9 (status: confirmed): whenever the parser succeeds on a text
(empty error), re-running it on the substring it effectively parsed —
the stripped whole text, or the brace-extracted block — yields the same
parsed object with empty error. -/
theorem c9_parse_idempotent (text : String) (v : PyVal)
    (h : parse_agent_json text = (v, "")) :
    ∃ sub, extractedOf text = Option.some sub ∧ parse_agent_json sub = (v, "") := by
  rw [parse_agent_json_eq] at h
  cases hL : loads (pyStrip text) with
  | ok w =>
    rw [hL] at h
    cases h
    refine ⟨pyStrip text, ?_, ?_⟩
    · rw [extractedOf_eq, hL]
      rfl
    · rw [parse_agent_json_eq, pyStrip_idem, hL]
  | error e0 =>
    rw [hL] at h
    dsimp only at h
    cases hE : extract_braces (pyStrip text) with
    | none =>
      rw [hE] at h
      dsimp only at h
      have h2 : "No JSON object found in response." = "" := congrArg Prod.snd h
      exact absurd h2 (by decide)
    | some sub =>
      rw [hE] at h
      dsimp only at h
      cases hS : loads sub with
      | error e1 =>
        rw [hS] at h
        dsimp only at h
        have h2 : "Failed to parse extracted JSON: " ++ e1 = "" := congrArg Prod.snd h
        exact absurd h2 (string_append_ne_empty_left (by decide))
      | ok w =>
        rw [hS] at h
        cases h
        refine ⟨sub, ?_, ?_⟩
        · rw [extractedOf_eq, hL]
          simpa [exceptOk] using hE
        · rw [parse_agent_json_eq, pyStrip_extract_fix hE, hS]

/-- Witness for C9: a directive object surrounded by prose parses, and
re-parsing the extracted block yields the same object. -/
theorem c9_parse_idempotent_witness :
    extractedOf "note \x7b\"type\": \"final\", \"answer\": \"53\"\x7d end" =
      Option.some "\x7b\"type\": \"final\", \"answer\": \"53\"\x7d" ∧
    parse_agent_json "\x7b\"type\": \"final\", \"answer\": \"53\"\x7d" =
      (PyVal.pydict [("type", PyVal.pystr "final"), ("answer", PyVal.pystr "53")], "") := by
  obtain ⟨sub, h1, h2⟩ :=
    c9_parse_idempotent "note \x7b\"type\": \"final\", \"answer\": \"53\"\x7d end"
      (PyVal.pydict [("type", PyVal.pystr "final"), ("answer", PyVal.pystr "53")]) rfl
  have h0 : extractedOf "note \x7b\"type\": \"final\", \"answer\": \"53\"\x7d end" =
      Option.some "\x7b\"type\": \"final\", \"answer\": \"53\"\x7d" := rfl
  rw [h0] at h1
  cases h1
  exact ⟨h0, h2⟩

/-- Claim C10 (status: confirmed): the calc tool evaluates only
whitelisted expressions — any character outside digits, `+ - * / ( ) .`
and whitespace produces the fixed invalid-characters observation and the
evaluator is never consulted (the result is the same for every evaluator)
— and when evaluation is attempted, a raised exception is caught and
returned as the `ERROR: `-prefixed observation instead of propagating. -/
theorem c10_calc_guard (evalFn : String → Except String PyVal) (expr : String) :
    (expr.data.any (fun c => !isCalcChar c) = true →
       tool_calc evalFn expr = "ERROR: expression contains invalid characters" ∧
       ∀ evalFn2, tool_calc evalFn2 expr = tool_calc evalFn expr) ∧
    (calcGuardOk expr = true → ∀ m, evalFn expr = Except.error m →
       tool_calc evalFn expr = "ERROR: " ++ m) := by
  constructor
  · intro hbad
    have hguard : calcGuardOk expr = false := by
      obtain ⟨c, hc, hneg⟩ := List.any_eq_true.mp hbad
      have hall : expr.data.all isCalcChar = false := by
        rw [Bool.eq_false_iff]
        intro hallT
        rw [List.all_eq_true.mp hallT c hc] at hneg
        exact Bool.noConfusion hneg
      unfold calcGuardOk
      rw [hall, Bool.and_false]
    constructor
    · unfold tool_calc
      rw [hguard]
      rfl
    · intro evalFn2
      unfold tool_calc
      rw [hguard]
      rfl
  · intro hok m hm
    unfold tool_calc
    rw [hok, hm]
    rfl

/-- Witness for C10: the caret in `2^3` is rejected without evaluation,
and an evaluator exception on the whitelisted `1+1` comes back as the
`ERROR: `-prefixed text. -/
theorem c10_calc_guard_witness :
    tool_calc (fun _ => Except.error "boom") "2^3" =
      "ERROR: expression contains invalid characters" ∧
    tool_calc (fun _ => Except.error "boom") "1+1" = "ERROR: " ++ "boom" := by
  constructor
  · exact ((c10_calc_guard (fun _ => Except.error "boom") "2^3").1 (by decide)).1
  · exact (c10_calc_guard (fun _ => Except.error "boom") "1+1").2 (by decide) "boom" rfl

end AgentLoop
